import Mathlib

/-!
Verification of the oxpdf-python client (src/oxpdf/client.py) against its
specification.  The embedding models, faithfully to the source:

* the JSON value universe that json.loads produces (objects as ordered
  field lists, arrays, strings, integers, booleans, null);
* the Server-Sent-Events decoder loop of Client.parse_stream
  (client.py lines 190-209) as a step function over the decoder state
  (current event type, accumulated data lines) folded over the input lines;
* the response handling of Client._request (lines 44-78), including the
  error-message construction of lines 60-74;
* the transport-failure wrapping of lines 54-55 and 184-188;
* the pre-network path validation shared by Client._upload_pdf
  (lines 89-93) and Client.parse_stream (lines 153-157);
* the query-parameter construction of Client.parse (lines 120-126) and
  Client.parse_stream (lines 159-165).

Python string operations are modelled by structurally recursive functions
on the character list of a string, so that every definition evaluates by
kernel reduction.  The Python json.loads function is a standard-library
call, external to the repository; it is modelled as an abstract parameter
jl : String -> Option Json (none meaning the parse raised), and theorems
that depend on particular parses hypothesise the relevant values.
-/

/-! ### Python string primitives -/

/-- Whether the second character list is an initial segment of the first:
the model of Python str.startswith. -/
def charsBeginWith : List Char → List Char → Bool
  | _, [] => true
  | [], _ :: _ => false
  | x :: xs, y :: ys => x = y && charsBeginWith xs ys

/-- Python s.startswith(p). -/
def strStartsWith (s p : String) : Bool := charsBeginWith s.data p.data

/-- The characters Python str.strip() removes: space, tab, newline,
carriage return, vertical tab, form feed. -/
def pyIsSpace (c : Char) : Bool :=
  c = ' ' || c = '\t' || c = '\n' || c = '\r' || c = '\x0b' || c = '\x0c'

/-- Python s.strip(): remove leading and trailing whitespace. -/
def strTrim (s : String) : String :=
  ⟨((s.data.dropWhile pyIsSpace).reverse.dropWhile pyIsSpace).reverse⟩

/-- Python s[n:] (slicing by character index). -/
def strDrop (s : String) (n : Nat) : String := ⟨s.data.drop n⟩

/-- Python sep.join(parts). -/
def strJoin (sep : String) : List String → String
  | [] => ""
  | [s] => s
  | s :: rest => s ++ sep ++ strJoin sep rest

/-- Python s.lower(), on the ASCII range the claims exercise. -/
def strToLower (s : String) : String := ⟨s.data.map Char.toLower⟩

/-- Split a character list on a separator character; always returns at
least one (possibly empty) group. -/
def splitOnChar (c : Char) : List Char → List (List Char)
  | [] => [[]]
  | x :: xs =>
    match splitOnChar c xs with
    | [] => [[]]
    | g :: gs => if x = c then [] :: g :: gs else (x :: g) :: gs

/-! ### JSON values -/

/-- JSON values as produced by json.loads.  Numbers are modelled as
integers: no claim exercises non-integral numbers.  Objects carry their
fields as an ordered association list; json.loads never produces an object
with duplicate keys, so first-match lookup agrees with dict lookup. -/
inductive Json where
  | null : Json
  | bool (b : Bool) : Json
  | num (n : Int) : Json
  | str (s : String) : Json
  | arr (xs : List Json) : Json
  | obj (fields : List (String × Json)) : Json

/-- First-match lookup in an object field list, the model of dict access. -/
def lookupField : List (String × Json) → String → Option Json
  | [], _ => none
  | (k, v) :: fs, key => if k = key then some v else lookupField fs key

/-- Whether a JSON value is an object (a Python dict after json.loads).
Only dicts have a get method; calling get on any other value raises
AttributeError. -/
def Json.isObj : Json → Bool
  | .obj _ => true
  | _ => false

mutual

/-- Python repr of a value produced by json.loads (the form str uses for
values nested inside containers): None, True, False, decimal integers,
single-quoted strings, square-bracketed lists, brace-delimited dicts.
String escaping inside repr is not modelled; no claim exercises it. -/
def pyRepr : Json → String
  | .null => "None"
  | .bool true => "True"
  | .bool false => "False"
  | .num n => toString n
  | .str s => "\x27" ++ s ++ "\x27"
  | .arr xs => "[" ++ strJoin ", " (pyReprList xs) ++ "]"
  | .obj fs => "\x7b" ++ strJoin ", " (pyReprFields fs) ++ "\x7d"

def pyReprList : List Json → List String
  | [] => []
  | x :: xs => pyRepr x :: pyReprList xs

def pyReprFields : List (String × Json) → List String
  | [] => []
  | (k, v) :: fs => ("\x27" ++ k ++ "\x27: " ++ pyRepr v) :: pyReprFields fs

end

/-- Python str of a value produced by json.loads: the string itself for a
string, repr otherwise. -/
def pyStr : Json → String
  | .str s => s
  | j => pyRepr j

/-- Python d.get("msg", d) for a dict d (client.py line 65, in the list
branch of the detail computation).  Callers established d is a dict;
the non-object case is never reached there. -/
def msgOrSelf (d : Json) : Json :=
  match d with
  | .obj fs =>
    match lookupField fs "msg" with
    | some v => v
    | none => d
  | _ => d

/-! ### Event stream decoder (Client.parse_stream, lines 190-209) -/

/-- A stream event as yielded by Client.parse_stream, line 207:
a dict with keys event and data. -/
structure SSEEvent where
  event : String
  data : Json

/-- The payload computed for one SSE frame, client.py lines 202-206:
json.loads of the newline-joined data lines, falling back to a dict with
single key raw holding the joined string when the parse raises. -/
def ssePayload (jl : String → Option Json) (raw : String) : Json :=
  match jl raw with
  | some j => j
  | none => Json.obj [("raw", Json.str raw)]

/-- One iteration of the line loop of Client.parse_stream, lines 196-209,
on decoder state (event_type, data_lines).  Returns the new state and the
events yielded by this iteration (the empty-line branch yields at most
one). -/
def decodeStep (jl : String → Option Json) (st : String × List String)
    (line : String) : (String × List String) × List SSEEvent :=
  let event_type := st.1
  let data_lines := st.2
  if strStartsWith line "event:" then
    ((strTrim (strDrop line 6), data_lines), [])
  else if strStartsWith line "data:" then
    ((event_type, data_lines ++ [strTrim (strDrop line 5)]), [])
  else if line = "" then
    if data_lines.isEmpty then
      (st, [])
    else
      let raw := strJoin "\n" data_lines
      (("message", []), [⟨event_type, ssePayload jl raw⟩])
  else
    (st, [])

/-- The events yielded by running the loop of lines 193-209 over a list of
decoded lines from a given state.  The loop ends when the lines end: the
base case returns no further events, so state left over at stream end is
dropped. -/
def decodeLines (jl : String → Option Json) :
    List String → String × List String → List SSEEvent
  | [], _ => []
  | l :: ls, st =>
    let r := decodeStep jl st l
    r.2 ++ decodeLines jl ls r.1

/-- Decoder state after consuming a list of lines. -/
def stateAfter (jl : String → Option Json) :
    List String → String × List String → String × List String
  | [], st => st
  | l :: ls, st => stateAfter jl ls (decodeStep jl st l).1

/-- All events yielded by Client.parse_stream for a given line stream,
starting from the initial state of lines 190-191: event_type = message,
data_lines = []. -/
def parse_stream_events (jl : String → Option Json) (lines : List String) :
    List SSEEvent :=
  decodeLines jl lines ("message", [])

/-! ### Response handling (Client._request, lines 44-78) -/

/-- The observable parts of a requests response used by _request:
numeric status code, HTTP reason phrase, decoded body text.  The body
bytes (resp.content) are empty exactly when the text is empty, and
resp.json() parses the body text. -/
structure HttpResponse where
  status_code : Nat
  reason : String
  text : String

/-- requests Response.ok: true unless raise_for_status would raise,
which it does exactly for 400 <= status < 600. -/
def HttpResponse.ok (r : HttpResponse) : Bool :=
  !(decide (400 ≤ r.status_code ∧ r.status_code < 600))

/-- The except-branch message of client.py line 69:
resp.text or resp.reason or the synthesized HTTP-code string. -/
def http_fallback (resp : HttpResponse) : String :=
  if resp.text ≠ "" then resp.text
  else if resp.reason ≠ "" then resp.reason
  else "HTTP " ++ toString resp.status_code

/-- The error message computed by client.py lines 61-69 for a non-success
response.  The try-block raises (landing in the except branch, which
yields http_fallback) when json.loads fails, when the parsed body is not
a dict (get on it raises AttributeError), or when the detail value is a
list containing a non-dict element (get on that element raises
AttributeError inside the join). -/
def errorDetail (jl : String → Option Json) (resp : HttpResponse) : String :=
  match jl resp.text with
  | none => http_fallback resp
  | some (Json.obj fields) =>
    let detail :=
      match lookupField fields "detail" with
      | some d => d
      | none =>
        match lookupField fields "error" with
        | some e => e
        | none => Json.str resp.text
    match detail with
    | Json.str s => s
    | Json.arr ds =>
      if ds.all Json.isObj then
        strJoin "; " (ds.map fun d => pyStr (msgOrSelf d))
      else http_fallback resp
    | d => pyStr d
  | some _ => http_fallback resp

/-- Outcome of Client._request once a response was received:
a returned mapping, a raised OxPDFError (message, status_code,
response_body), or an exception from the final resp.json() on a
success response with a non-empty unparsable body (propagated unwrapped,
client.py line 78). -/
inductive RequestResult where
  | success (body : Json)
  | apiError (message : String) (status_code : Option Nat)
      (response_body : Option String)
  | decodeRaise

/-- Client._request response handling, lines 57-78: 204 returns an empty
dict; a non-success status raises OxPDFError with the computed detail,
the status code and the body text; an empty body returns an empty dict;
otherwise the parsed JSON body is returned. -/
def handle_response (jl : String → Option Json) (resp : HttpResponse) :
    RequestResult :=
  if resp.status_code = 204 then .success (Json.obj [])
  else if resp.ok then
    if resp.text = "" then .success (Json.obj [])
    else
      match jl resp.text with
      | some j => .success j
      | none => .decodeRaise
  else .apiError (errorDetail jl resp) (some resp.status_code) (some resp.text)

/-- Client._request, lines 44-78: the session call either raises a
requests.RequestException carrying a message (modelled as Except.error),
which line 55 wraps as OxPDFError(str(e)) with no status code and no
response body, or produces a response handled by lines 57-78. -/
def request_dispatch (jl : String → Option Json)
    (transport : Except String HttpResponse) : RequestResult :=
  match transport with
  | .error e => .apiError e none none
  | .ok resp => handle_response jl resp

/-- Outcome of the streaming request setup of Client.parse_stream,
lines 175-188: either a raised OxPDFError or a streaming response whose
lines feed the decoder. -/
inductive StreamSetup where
  | failure (message : String) (status_code : Option Nat)
      (response_body : Option String)
  | streaming (resp : HttpResponse)

/-- Client.parse_stream, lines 175-188: a transport exception is wrapped
as OxPDFError(str(e)) with no status code (lines 184-185); a non-success
status raises OxPDFError(resp.text, status, resp.text) (lines 187-188);
otherwise the response body is streamed. -/
def parse_stream_setup (transport : Except String HttpResponse) :
    StreamSetup :=
  match transport with
  | .error e => .failure e none none
  | .ok resp =>
    if resp.ok then .streaming resp
    else .failure resp.text (some resp.status_code) (some resp.text)

/-! ### Path validation (Client._upload_pdf lines 89-93 and
Client.parse_stream lines 153-157, which duplicate the same checks) -/

/-- pathlib PurePosixPath(p).name: the final path component, with
trailing slashes ignored. -/
def path_name (p : String) : String :=
  let q := (p.data.reverse.dropWhile (fun c => c = '/')).reverse
  ⟨(splitOnChar '/' q).getLastD []⟩

/-- pathlib PurePosixPath(p).suffix: the extension of the final
component, computed as the part of the name from the index i of its last
dot, provided 0 < i < len(name) - 1, and the empty string otherwise. -/
def path_suffix (p : String) : String :=
  let name := (path_name p).data
  let segs := splitOnChar '.' name
  match segs with
  | [] => ""
  | [_] => ""
  | _ =>
    let ext := segs.getLastD []
    if 0 < name.length - ext.length - 1 ∧ ext ≠ [] then ⟨'.' :: ext⟩
    else ""

/-- Outcome of the validation prologue shared by Client._upload_pdf
(lines 89-93) and Client.parse_stream (lines 153-157).  The networkCall
constructor marks the control point after both checks, where the file is
read and the HTTP request is issued: a fileNotFound or invalidArgument
outcome is raised before any network call. -/
inductive UploadOutcome where
  | fileNotFound (message : String)
  | invalidArgument (message : String)
  | networkCall (filename : String)

/-- The validation prologue: FileNotFoundError when the path does not
exist, ValueError when the lowercased suffix is not ".pdf", otherwise
proceed to the upload with the file name of the path.  The filesystem is
abstracted as the predicate ex (Path.exists). -/
def pdf_path_validate (ex : String → Bool) (file_path : String) :
    UploadOutcome :=
  if ex file_path = false then
    .fileNotFound ("File not found: " ++ file_path)
  else if strToLower (path_suffix file_path) ≠ ".pdf" then
    .invalidArgument "File must be a PDF"
  else
    .networkCall (path_name file_path)

/-! ### Query parameters of the parse operations -/

/-- The pages query value, client.py lines 126 and 165:
",".join(str(p) for p in pages). -/
def pages_value (pages : List Int) : String :=
  strJoin "," (pages.map fun p => toString p)

/-- The params dict built by Client.parse, lines 120-126.  Python
truthiness: a None or empty-string option and a None or empty pages list
add no entry. -/
def parse_params (schema_id schema_template : Option String)
    (pages : Option (List Int)) : List (String × String) :=
  (match schema_id with
   | some s => if s ≠ "" then [("schema_id", s)] else []
   | none => []) ++
  (match schema_template with
   | some s => if s ≠ "" then [("schema_template", s)] else []
   | none => []) ++
  (match pages with
   | some ps => if ¬ ps.isEmpty then [("pages", pages_value ps)] else []
   | none => [])

/-- The params dict built by Client.parse_stream, lines 159-165: the same
entries after an unconditional batch_size entry. -/
def parse_stream_params (batch_size : Int)
    (schema_id schema_template : Option String)
    (pages : Option (List Int)) : List (String × String) :=
  ("batch_size", toString batch_size) ::
    parse_params schema_id schema_template pages


/-! ### Helper lemmas -/

theorem ok_false_iff (resp : HttpResponse) :
    resp.ok = false ↔ 400 ≤ resp.status_code ∧ resp.status_code < 600 := by
  simp [HttpResponse.ok]

theorem handle_response_not_ok (jl : String → Option Json)
    (resp : HttpResponse) (h : resp.ok = false) :
    handle_response jl resp =
      .apiError (errorDetail jl resp) (some resp.status_code)
        (some resp.text) := by
  have h2 : resp.status_code ≠ 204 := by
    have := (ok_false_iff resp).1 h
    omega
  simp [handle_response, h, h2]

theorem decodeStep_events_of_ne (jl : String → Option Json)
    (st : String × List String) (l : String) (h : l ≠ "") :
    (decodeStep jl st l).2 = [] := by
  by_cases h1 : strStartsWith l "event:" = true
  · simp [decodeStep, h1]
  · by_cases h2 : strStartsWith l "data:" = true
    · simp [decodeStep, h1, h2]
    · simp [decodeStep, h1, h2, h]

theorem decodeLines_of_no_blank (jl : String → Option Json)
    (lines : List String) (h : ∀ l ∈ lines, l ≠ "") :
    ∀ st, decodeLines jl lines st = [] := by
  induction lines with
  | nil => intro st; rfl
  | cons l ls ih =>
    intro st
    have h1 : l ≠ "" := h l (by simp)
    have h2 : ∀ x ∈ ls, x ≠ "" := fun x hx => h x (by simp [hx])
    simp [decodeLines, decodeStep_events_of_ne jl st l h1, ih h2]

theorem decodeLines_append (jl : String → Option Json)
    (xs ys : List String) (st : String × List String) :
    decodeLines jl (xs ++ ys) st =
      decodeLines jl xs st ++ decodeLines jl ys (stateAfter jl xs st) := by
  induction xs generalizing st with
  | nil => simp [decodeLines, stateAfter]
  | cons l ls ih => simp [decodeLines, stateAfter, ih]

/-! ### Claim theorems -/

/-- C1: For the event stream decoder, processing the five sample lines
yields exactly two events in order: one with type "page" and the parsed
JSON payload, then one with type "message" and the raw-fallback payload;
and in general an empty line with accumulated data lines joins them with
newlines, parses the join as JSON, falls back to the raw wrapper object on
parse failure, emits one event with the current event type, and resets the
state to event type "message" with no accumulated data, regardless of
parse success. -/
theorem c1_decoder_frames (jl : String → Option Json)
    (h1 : jl "\x7b\"n\":1\x7d" = some (Json.obj [("n", Json.num 1)]))
    (h2 : jl "not-json" = none) :
    parse_stream_events jl
        ["event: page", "data: \x7b\"n\":1\x7d", "", "data: not-json", ""] =
      [⟨"page", Json.obj [("n", Json.num 1)]⟩,
       ⟨"message", Json.obj [("raw", Json.str "not-json")]⟩]
    ∧ (∀ et ds, ds.isEmpty = false →
        decodeStep jl (et, ds) "" =
          (("message", []), [⟨et, ssePayload jl (strJoin "\n" ds)⟩]))
    ∧ (∀ raw j, jl raw = some j → ssePayload jl raw = j)
    ∧ (∀ raw, jl raw = none →
        ssePayload jl raw = Json.obj [("raw", Json.str raw)]) := by
  refine ⟨?_, ?_, ?_, ?_⟩
  · have e : parse_stream_events jl
        ["event: page", "data: \x7b\"n\":1\x7d", "", "data: not-json", ""] =
        [⟨"page", ssePayload jl "\x7b\"n\":1\x7d"⟩,
         ⟨"message", ssePayload jl "not-json"⟩] := rfl
    rw [e]
    simp [ssePayload, h1, h2]
  · intro et ds h
    have e : decodeStep jl (et, ds) "" =
        if ds.isEmpty then ((et, ds), [])
        else (("message", []),
          [⟨et, ssePayload jl (strJoin "\n" ds)⟩]) := rfl
    rw [e]
    simp [h]
  · intro raw j h
    simp [ssePayload, h]
  · intro raw h
    simp [ssePayload, h]

/-- C1 witness: the theorem applied to a concrete json.loads model that
parses the sample object and rejects the sample non-JSON string. -/
theorem c1_decoder_frames_witness :
    parse_stream_events
        (fun s => if s = "\x7b\"n\":1\x7d"
          then some (Json.obj [("n", Json.num 1)]) else none)
        ["event: page", "data: \x7b\"n\":1\x7d", "", "data: not-json", ""] =
      [⟨"page", Json.obj [("n", Json.num 1)]⟩,
       ⟨"message", Json.obj [("raw", Json.str "not-json")]⟩] :=
  (c1_decoder_frames
    (fun s => if s = "\x7b\"n\":1\x7d"
      then some (Json.obj [("n", Json.num 1)]) else none)
    rfl rfl).1

/-- C3: When the line stream ends while data lines are accumulated but no
terminating empty line has been seen, the accumulated data is silently
dropped: a trailing segment containing no empty line contributes no
events, from any decoder state, so the decoder emits nothing for it at
stream end. -/
theorem c3_no_final_flush (jl : String → Option Json)
    (lines tail : List String) (h : ∀ l ∈ tail, l ≠ "") :
    parse_stream_events jl (lines ++ tail) = parse_stream_events jl lines
    ∧ ∀ st, decodeLines jl tail st = [] := by
  have hz := decodeLines_of_no_blank jl tail h
  constructor
  · unfold parse_stream_events
    rw [decodeLines_append, hz, List.append_nil]
  · exact hz

/-- C3 witness: a stream ending with an unterminated data line yields the
same events as the stream without it; in particular one unterminated data
line alone yields no events. -/
theorem c3_no_final_flush_witness :
    parse_stream_events (fun _ => none) ["data: x"] = [] :=
  ((c3_no_final_flush (fun _ => none) [] ["data: x"]
    (by decide)).1).trans rfl

/-- C8: Any line that does not begin with "event:" or "data:" and is not
empty leaves the decoder state unchanged and emits nothing; and an empty
line arriving with no accumulated data lines emits no event and leaves the
state unchanged, so an event type set earlier persists and is not reset to
"message". -/
theorem c8_ignored_lines (jl : String → Option Json) :
    (∀ st l, strStartsWith l "event:" = false →
      strStartsWith l "data:" = false → l ≠ "" →
      decodeStep jl st l = (st, []))
    ∧ (∀ et, decodeStep jl (et, []) "" = ((et, []), [])) := by
  constructor
  · intro st l h1 h2 h3
    simp [decodeStep, h1, h2, h3]
  · intro et
    rfl

/-- C8 witness: an SSE comment line is ignored with data pending, and an
empty line with no pending data keeps the pending event type "page". -/
theorem c8_ignored_lines_witness :
    decodeStep (fun _ => none) ("page", ["d"]) ": keepalive" =
      (("page", ["d"]), [])
    ∧ decodeStep (fun _ => none) ("page", []) "" = (("page", []), []) :=
  ⟨(c8_ignored_lines (fun _ => none)).1 ("page", ["d"]) ": keepalive"
      rfl rfl (by decide),
   (c8_ignored_lines (fun _ => none)).2 "page"⟩

/-- C5: Every response with HTTP status 204, and every success-status
response with a zero-length body, makes the request dispatcher return an
empty mapping rather than raise an error. -/
theorem c5_empty_success (jl : String → Option Json) (resp : HttpResponse)
    (h : resp.status_code = 204 ∨ (resp.ok = true ∧ resp.text = "")) :
    handle_response jl resp = .success (Json.obj []) := by
  rcases h with h | ⟨hok, htext⟩
  · simp [handle_response, h]
  · by_cases h204 : resp.status_code = 204
    · simp [handle_response, h204]
    · simp [handle_response, h204, hok, htext]

/-- C5 witness: a 204 response with a body and a 200 response with an
empty body both return the empty mapping. -/
theorem c5_empty_success_witness :
    handle_response (fun _ => none) ⟨204, "No Content", "x"⟩ =
      .success (Json.obj [])
    ∧ handle_response (fun _ => none) ⟨200, "OK", ""⟩ =
      .success (Json.obj []) :=
  ⟨c5_empty_success (fun _ => none) ⟨204, "No Content", "x"⟩ (Or.inl rfl),
   c5_empty_success (fun _ => none) ⟨200, "OK", ""⟩ (Or.inr ⟨rfl, rfl⟩)⟩

/-- C2 counterexample: the claim predicts that a non-success body whose
detail field is the sequence containing the single string element "a"
produces the message "a" (the stringified element).  On the code, get on
the string element raises AttributeError inside the join, the except
branch of client.py line 68 catches it, and the message falls back to the
raw body text instead. -/
theorem c2_counterexample :
    errorDetail
        (fun s => if s = "\x7b\"detail\": [\"a\"]\x7d"
          then some (Json.obj [("detail", Json.arr [Json.str "a"])])
          else none)
        ⟨422, "Unprocessable Entity", "\x7b\"detail\": [\"a\"]\x7d"⟩ =
      "\x7b\"detail\": [\"a\"]\x7d"
    ∧ ("\x7b\"detail\": [\"a\"]\x7d" : String) ≠ "a" := by
  exact ⟨rfl, by decide⟩

/-- C2 amended: for a non-success response whose body parses as a JSON
object, a string detail field is the message; absent a detail field, a
string error field is the message; a detail sequence all of whose
elements are objects produces each element's msg field (or the
stringified element, for objects without one) joined with "; "; and a
detail sequence containing a non-object element makes the whole
computation fall back (the message becomes raw text, then reason, then
the HTTP-code string). -/
theorem c2_error_detail_fields (jl : String → Option Json)
    (resp : HttpResponse) (fields : List (String × Json))
    (hok : resp.ok = false) (hbody : jl resp.text = some (Json.obj fields)) :
    (∀ s, lookupField fields "detail" = some (Json.str s) →
      handle_response jl resp =
        .apiError s (some resp.status_code) (some resp.text))
    ∧ (∀ s, lookupField fields "detail" = none →
        lookupField fields "error" = some (Json.str s) →
        handle_response jl resp =
          .apiError s (some resp.status_code) (some resp.text))
    ∧ (∀ ds, lookupField fields "detail" = some (Json.arr ds) →
        ds.all Json.isObj = true →
        handle_response jl resp =
          .apiError (strJoin "; " (ds.map fun d => pyStr (msgOrSelf d)))
            (some resp.status_code) (some resp.text))
    ∧ (∀ ds, lookupField fields "detail" = some (Json.arr ds) →
        ds.all Json.isObj = false →
        handle_response jl resp =
          .apiError (http_fallback resp)
            (some resp.status_code) (some resp.text)) := by
  have hr := handle_response_not_ok jl resp hok
  refine ⟨?_, ?_, ?_, ?_⟩
  · intro s hd
    rw [hr]
    simp [errorDetail, hbody, hd]
  · intro s hd he
    rw [hr]
    simp [errorDetail, hbody, hd, he]
  · intro ds hd hall
    rw [hr]
    simp [errorDetail, hbody, hd, hall]
  · intro ds hd hall
    rw [hr]
    simp [errorDetail, hbody, hd, hall]

/-- C2 witness: a body with detail "X" produces message "X", and a body
whose detail is a list of two objects with msg fields "a" and "b"
produces message "a; b". -/
theorem c2_error_detail_fields_witness :
    handle_response
        (fun s => if s = "\x7b\"detail\": \"X\"\x7d"
          then some (Json.obj [("detail", Json.str "X")]) else none)
        ⟨400, "Bad Request", "\x7b\"detail\": \"X\"\x7d"⟩ =
      .apiError "X" (some 400) (some "\x7b\"detail\": \"X\"\x7d")
    ∧ handle_response
        (fun s => if s = "\x7b\"detail\": [\x7b\"msg\": \"a\"\x7d, \x7b\"msg\": \"b\"\x7d]\x7d"
          then some (Json.obj [("detail",
            Json.arr [Json.obj [("msg", Json.str "a")],
                      Json.obj [("msg", Json.str "b")]])])
          else none)
        ⟨422, "Unprocessable Entity",
          "\x7b\"detail\": [\x7b\"msg\": \"a\"\x7d, \x7b\"msg\": \"b\"\x7d]\x7d"⟩ =
      .apiError "a; b" (some 422)
        (some "\x7b\"detail\": [\x7b\"msg\": \"a\"\x7d, \x7b\"msg\": \"b\"\x7d]\x7d") :=
  ⟨(c2_error_detail_fields
      (fun s => if s = "\x7b\"detail\": \"X\"\x7d"
        then some (Json.obj [("detail", Json.str "X")]) else none)
      ⟨400, "Bad Request", "\x7b\"detail\": \"X\"\x7d"⟩
      [("detail", Json.str "X")] rfl rfl).1 "X" rfl,
   (c2_error_detail_fields
      (fun s => if s = "\x7b\"detail\": [\x7b\"msg\": \"a\"\x7d, \x7b\"msg\": \"b\"\x7d]\x7d"
        then some (Json.obj [("detail",
          Json.arr [Json.obj [("msg", Json.str "a")],
                    Json.obj [("msg", Json.str "b")]])])
        else none)
      ⟨422, "Unprocessable Entity",
        "\x7b\"detail\": [\x7b\"msg\": \"a\"\x7d, \x7b\"msg\": \"b\"\x7d]\x7d"⟩
      [("detail", Json.arr [Json.obj [("msg", Json.str "a")],
                            Json.obj [("msg", Json.str "b")]])]
      rfl rfl).2.2.1
     [Json.obj [("msg", Json.str "a")], Json.obj [("msg", Json.str "b")]]
     rfl rfl⟩

/-- C4: For a non-success response whose body cannot be parsed as JSON,
the error message falls back to the raw response text if non-empty, else
the HTTP reason phrase if non-empty, else the synthesized HTTP-code
string; and in every non-success case the raised error carries the
numeric status code and the raw body text. -/
theorem c4_unparsable_fallback (jl : String → Option Json)
    (resp : HttpResponse) (hok : resp.ok = false) :
    handle_response jl resp =
      .apiError (errorDetail jl resp) (some resp.status_code)
        (some resp.text)
    ∧ (jl resp.text = none →
        (resp.text ≠ "" → errorDetail jl resp = resp.text)
        ∧ (resp.text = "" → resp.reason ≠ "" →
            errorDetail jl resp = resp.reason)
        ∧ (resp.text = "" → resp.reason = "" →
            errorDetail jl resp = "HTTP " ++ toString resp.status_code)) := by
  refine ⟨handle_response_not_ok jl resp hok, fun hj => ⟨?_, ?_, ?_⟩⟩
  · intro ht
    simp [errorDetail, hj, http_fallback, ht]
  · intro ht hr
    rw [ht] at hj
    simp [errorDetail, hj, http_fallback, ht, hr]
  · intro ht hr
    rw [ht] at hj
    simp [errorDetail, hj, http_fallback, ht, hr]

/-- C4 witness: with an unparsable body, a 404 with body text "oops"
reports "oops", a 503 with empty body reports its reason phrase, and a
500 with empty body and empty reason reports "HTTP 500"; each error
carries the status code and the body text. -/
theorem c4_unparsable_fallback_witness :
    handle_response (fun _ => none) ⟨404, "Not Found", "oops"⟩ =
      .apiError "oops" (some 404) (some "oops")
    ∧ handle_response (fun _ => none) ⟨503, "Service Unavailable", ""⟩ =
      .apiError "Service Unavailable" (some 503) (some "")
    ∧ handle_response (fun _ => none) ⟨500, "", ""⟩ =
      .apiError "HTTP 500" (some 500) (some "") := by
  refine ⟨?_, ?_, ?_⟩
  · have hc := c4_unparsable_fallback (fun _ => none)
      ⟨404, "Not Found", "oops"⟩ rfl
    rw [hc.1, ((hc.2 rfl).1 (by decide) : _)]
  · have hc := c4_unparsable_fallback (fun _ => none)
      ⟨503, "Service Unavailable", ""⟩ rfl
    rw [hc.1, ((hc.2 rfl).2.1 rfl (by decide) : _)]
  · have hc := c4_unparsable_fallback (fun _ => none) ⟨500, "", ""⟩ rfl
    rw [hc.1, ((hc.2 rfl).2.2 rfl rfl : _)]
    rfl

/-- C6: A transport-level failure during request issuance, in both the
non-streaming path (client.py lines 54-55) and the streaming path
(lines 184-185), is wrapped into the single client error type with the
underlying failure message and no status code. -/
theorem c6_transport_wrapped :
    (∀ (jl : String → Option Json) (e : String),
      request_dispatch jl (Except.error e) = .apiError e none none)
    ∧ (∀ e : String,
      parse_stream_setup (Except.error e) = .failure e none none) :=
  ⟨fun _ _ => rfl, fun _ => rfl⟩

/-- C7: For the file-based operations, a path that does not exist yields
the file-not-found failure, and an existing path whose extension is not
".pdf" case-insensitively yields the invalid-argument failure; both
outcomes are distinct from the networkCall outcome, so they occur before
any network call. -/
theorem c7_path_validation (ex : String → Bool) (p : String) :
    (ex p = false →
      pdf_path_validate ex p = .fileNotFound ("File not found: " ++ p))
    ∧ (ex p = true → strToLower (path_suffix p) ≠ ".pdf" →
      pdf_path_validate ex p = .invalidArgument "File must be a PDF") := by
  constructor
  · intro h
    simp [pdf_path_validate, h]
  · intro h1 h2
    simp [pdf_path_validate, h1, h2]

/-- C7 witness: a missing path is rejected as file-not-found, and an
existing path with extension ".txt" is rejected as invalid before any
network call. -/
theorem c7_path_validation_witness :
    pdf_path_validate (fun _ => false) "doc.pdf" =
      .fileNotFound "File not found: doc.pdf"
    ∧ pdf_path_validate (fun _ => true) "doc.txt" =
      .invalidArgument "File must be a PDF" :=
  ⟨(c7_path_validation (fun _ => false) "doc.pdf").1 rfl,
   (c7_path_validation (fun _ => true) "doc.txt").2 rfl (by decide)⟩

/-- C9: A non-empty page list is serialized into the pages query
parameter as the comma-joined decimal representations of its elements in
order, in both parse and parse_stream; in particular [1, 3, 5] produces
"1,3,5". -/
theorem c9_pages_serialization (ps : List Int) (h : ps ≠ []) :
    parse_params none none (some ps) = [("pages", pages_value ps)]
    ∧ parse_stream_params 5 none none (some ps) =
        [("batch_size", "5"), ("pages", pages_value ps)]
    ∧ pages_value [1, 3, 5] = "1,3,5" := by
  have h2 : ps.isEmpty = false := by
    cases ps with
    | nil => exact absurd rfl h
    | cons a l => rfl
  have hp : parse_params none none (some ps) = [("pages", pages_value ps)] := by
    simp [parse_params, h2]
  refine ⟨hp, ?_, rfl⟩
  show ("batch_size", toString (5 : Int)) ::
    parse_params none none (some ps) = _
  rw [hp]
  rfl

/-- C9 witness: the page list [1, 3, 5] serializes to the query value
"1,3,5" in both operations. -/
theorem c9_pages_serialization_witness :
    parse_params none none (some [1, 3, 5]) = [("pages", "1,3,5")]
    ∧ parse_stream_params 5 none none (some [1, 3, 5]) =
        [("batch_size", "5"), ("pages", "1,3,5")] :=
  ⟨(c9_pages_serialization [1, 3, 5] (by decide)).1,
   (c9_pages_serialization [1, 3, 5] (by decide)).2.1⟩
